import Mathlib

/-!
HighPrecisionTimer: a shallow embedding of `src/high_precision_timer.hpp` and a verification of its
lifecycle contract.

* The object is a record of its ten data members (`HighPrecisionTimer U`).
* Every member function is a pure function from the object before the call to
  a `Ret`: the returned value, the object after the call and the list of
  observable events (host calls and `std::cout` lines) the call produced, in
  program order.
* What the host answers (performance counter, `timeGetDevCaps`, `timeSetEvent`,
  `GetLastError`) is an argument of the call, so theorems quantify over every
  host outcome.
* User code (`void(*)(Args...)`, `void (T::*)()`) is a function on a user world
  `U`; a user function is assumed to return normally and not to touch the timer
  object it is registered with.
* `UINT`, `MMRESULT`, `DWORD` values are `Nat` and `LARGE_INTEGER` values are
  `Int`; the class does no arithmetic on them apart from comparisons.
-/

/-- The constant `TIMER_ACCURACY` (line 12): the desired clock resolution, in ms. -/
def TIMER_ACCURACY : Nat := 1

/-- The constant `TIMERR_NOERROR` of `mmsystem.h`. -/
def TIMERR_NOERROR : Nat := 0

/-- The flag `TIME_PERIODIC` of `mmsystem.h`. -/
def TIME_PERIODIC : Nat := 1

namespace windows

/-- The `max(a, b)` of `windows.h`, which expands to `((a) > (b)) ? (a) : (b)`. -/
def max (a b : Nat) : Nat := if a > b then a else b

/-- The `min(a, b)` of `windows.h`, which expands to `((a) < (b)) ? (a) : (b)`. -/
def min (a b : Nat) : Nat := if a < b then a else b

end windows

/-- The structure `TIMECAPS` of `mmsystem.h`: the resolution range the host reports. -/
structure TIMECAPS where
  wPeriodMin : Nat
  wPeriodMax : Nat
deriving DecidableEq, Repr

/-- A value of type `LPTIMECALLBACK`: the address of
`HighPrecisionTimer::TimerCallback`, or whatever an uninitialised `m_callback`
holds. -/
inductive LPTIMECALLBACK where
  | TimerCallback
  | indeterminate (bits : Nat)
deriving DecidableEq, Repr

/-- One observable event of a member function: a call to the host with its
arguments (and the value the host returned), or one line written to
`std::cout`. -/
inductive Event where
  | QueryPerformanceFrequency (ret : Int)
  | QueryPerformanceCounter (ret : Int)
  | GetTickCount (ret : Nat)
  | timeGetDevCaps (ret : Nat)
  | timeBeginPeriod (uPeriod : Nat)
  | timeSetEvent (uDelay uResolution : Nat) (lpTimeProc : LPTIMECALLBACK) (fuEvent : Nat)
      (ret : Nat)
  | timeKillEvent (uTimerID : Nat)
  | timeEndPeriod (uPeriod : Nat)
  | GetLastError (ret : Nat)
  | cout (line : String)
  | coutTimeSetEventFailed (lastError : Nat)
  | coutElapsed (currentTime lastTriggerTime perfFreq : Int)
deriving DecidableEq, Repr

namespace Event

/-- Whether the event is a call to the host (everything but the `std::cout`
lines). -/
def isHostCall : Event → Bool
  | cout _ => false
  | coutTimeSetEventFailed _ => false
  | coutElapsed _ _ _ => false
  | _ => true

/-- Whether the event is a resolution request, `timeBeginPeriod`. -/
def isBeginPeriod : Event → Bool
  | timeBeginPeriod _ => true
  | _ => false

/-- Whether the event is a resolution release, `timeEndPeriod`. -/
def isEndPeriod : Event → Bool
  | timeEndPeriod _ => true
  | _ => false

/-- Whether the event is a periodic registration attempt, `timeSetEvent`. -/
def isSetEvent : Event → Bool
  | timeSetEvent _ _ _ _ _ => true
  | _ => false

end Event

/-- The host calls among a list of events. -/
def hostCalls (tr : List Event) : List Event := tr.filter Event.isHostCall

/-- The data members of `class HighPrecisionTimer` (lines 126-135).  `U` is the
world the registered user code acts on; `m_generalCallback = none` is the empty
`std::function` (`nullptr`). -/
structure HighPrecisionTimer (U : Type) where
  m_mmTimerId : Nat
  m_wAccuracy : Nat
  m_xliPerfFreq : Int
  m_xliPerfStart : Int
  m_lastTriggerTime : Int
  m_nTicket : Nat
  m_callback : LPTIMECALLBACK
  m_generalCallback : Option (U → U)
  m_interval : Nat
  m_isRunning : Bool

/-- What a member function leaves behind: the value it returns, the object
after the call and the events of the call in program order. -/
structure Ret (U : Type) (ρ : Type) where
  ret : ρ
  self : HighPrecisionTimer U
  trace : List Event

/-- What the host answers during one call of `Start`. -/
structure StartHost where
  perfFreq : Int
  perfCounter : Int
  tickCount : Nat
  devCapsResult : Nat
  tc : TIMECAPS
  timerId : Nat
  lastError : Nat
deriving DecidableEq, Repr

namespace HighPrecisionTimer

variable {U : Type}

/-- The constructor (line 18).  It initialises `m_mmTimerId`, `m_wAccuracy`,
`m_isRunning`, `m_generalCallback`; the three `LARGE_INTEGER`s and `m_nTicket`
have default member initialisers; `m_interval` and `m_callback` are left
uninitialised, so what they hold is an argument. -/
def init (interval : Nat) (callback : LPTIMECALLBACK) : HighPrecisionTimer U :=
  { m_mmTimerId := 0
    m_wAccuracy := 0
    m_xliPerfFreq := 0
    m_xliPerfStart := 0
    m_lastTriggerTime := 0
    m_nTicket := 0
    m_callback := callback
    m_generalCallback := none
    m_interval := interval
    m_isRunning := false }

/-- The member function `RegisterFunction` (lines 26-39).  `func` is the user function, `args` the
pack `Args...` (a tuple). -/
def RegisterFunction {Args : Type} (t : HighPrecisionTimer U) (func : Args → U → U)
    (interval : Nat) (args : Args) : Ret U Bool :=
  if t.m_isRunning then
    ⟨false, t, [Event.cout "Timer is already running. Cannot register new function."]⟩
  else
    let argsTuple := args
    let t1 := { t with m_generalCallback := some (fun u => func argsTuple u) }
    let t2 := { t1 with m_callback := LPTIMECALLBACK.TimerCallback }
    let t3 := { t2 with m_interval := interval }
    ⟨true, t3, []⟩

/-- The member function `RegisterMemberFunction` (lines 42-54).  `obj` is the reference `T&` and
`func` the member function, which acts on the object referred to. -/
def RegisterMemberFunction {T : Type} (t : HighPrecisionTimer U) (obj : T) (func : T → U → U)
    (interval : Nat) : Ret U Bool :=
  if t.m_isRunning then
    ⟨false, t, [Event.cout "Timer is already running. Cannot register new function."]⟩
  else
    let t1 := { t with m_generalCallback := some (fun u => func obj u) }
    let t2 := { t1 with m_callback := LPTIMECALLBACK.TimerCallback }
    let t3 := { t2 with m_interval := interval }
    ⟨true, t3, []⟩

/-- The member function `Start` (lines 57-95). -/
def Start (t : HighPrecisionTimer U) (h : StartHost) : Ret U Bool :=
  if t.m_isRunning then
    ⟨false, t, [Event.cout "Timer is already running."]⟩
  else
    let t1 := { t with m_xliPerfFreq := h.perfFreq }
    let t2 := { t1 with m_xliPerfStart := h.perfCounter }
    let t3 := { t2 with m_lastTriggerTime := t2.m_xliPerfStart }
    let t4 := { t3 with m_nTicket := h.tickCount }
    let queries := [Event.QueryPerformanceFrequency h.perfFreq,
      Event.QueryPerformanceCounter h.perfCounter, Event.GetTickCount h.tickCount,
      Event.timeGetDevCaps h.devCapsResult]
    if h.devCapsResult = TIMERR_NOERROR then
      let t5 := { t4 with
        m_wAccuracy := windows.min (windows.max h.tc.wPeriodMin TIMER_ACCURACY) h.tc.wPeriodMax }
      let t6 := { t5 with m_mmTimerId := h.timerId }
      let armed := queries ++ [Event.timeBeginPeriod t5.m_wAccuracy,
        Event.timeSetEvent t5.m_interval 0 t5.m_callback TIME_PERIODIC h.timerId]
      if t6.m_mmTimerId = 0 then
        ⟨false, t6, armed ++ [Event.GetLastError h.lastError,
          Event.coutTimeSetEventFailed h.lastError]⟩
      else
        ⟨true, { t6 with m_isRunning := true }, armed⟩
    else
      ⟨false, t4, queries⟩

/-- The member function `Stop` (lines 98-104). -/
def Stop (t : HighPrecisionTimer U) : Ret U Unit :=
  if t.m_mmTimerId ≠ 0 then
    ⟨(), { t with m_mmTimerId := 0, m_isRunning := false }, [Event.timeKillEvent t.m_mmTimerId]⟩
  else
    ⟨(), t, []⟩

/-- The member function `FreeTimer` (lines 107-113). -/
def FreeTimer (t : HighPrecisionTimer U) : Ret U Unit :=
  let s := t.Stop
  if s.self.m_wAccuracy ≠ 0 then
    ⟨(), { s.self with m_wAccuracy := 0 }, s.trace ++ [Event.timeEndPeriod s.self.m_wAccuracy]⟩
  else
    ⟨(), s.self, s.trace⟩

/-- The destructor (lines 21-23): it calls `FreeTimer`. -/
def destructor (t : HighPrecisionTimer U) : Ret U Unit :=
  t.FreeTimer

/-- The static member `TimerCallback` (lines 116-124), the trampoline, called with `dwUser`
pointing to `timer`; `currentTime` is what `QueryPerformanceCounter` reads and
`u` the user world at the firing.  The value returned is the user world after
`m_generalCallback()`, or `none` when the `std::function` is empty and the call
throws `std::bad_function_call`.  The printed `double` is kept as the three
integers it is computed from. -/
def TimerCallback (timer : HighPrecisionTimer U) (u : U) (currentTime : Int) :
    Ret U (Option U) :=
  let elapsed := Event.coutElapsed currentTime timer.m_lastTriggerTime timer.m_xliPerfFreq
  let timer1 := { timer with m_lastTriggerTime := currentTime }
  ⟨timer1.m_generalCallback.map (fun g => g u), timer1,
    [Event.QueryPerformanceCounter currentTime, elapsed]⟩

/-- The host fires the trampoline once per element of `times` (the counter
value read in that firing), one firing after the other.  The result is the
object and the user world after the last firing, with the events of all
firings; `none` when a firing throws. -/
def firings : List Int → HighPrecisionTimer U → U → Option (HighPrecisionTimer U × U × List Event)
  | [], t, u => some (t, u, [])
  | now :: rest, t, u =>
    match (t.TimerCallback u now).ret with
    | none => none
    | some u1 =>
      match firings rest (t.TimerCallback u now).self u1 with
      | none => none
      | some (t2, u2, tr) => some (t2, u2, (t.TimerCallback u now).trace ++ tr)

/-- The states an instance can be in, each with the events the instance has
produced so far: the constructor, followed by any finite sequence of calls of
the five public member functions, under any host answers. -/
inductive Reachable : HighPrecisionTimer U → List Event → Prop where
  | init (interval : Nat) (callback : LPTIMECALLBACK) : Reachable (init interval callback) []
  | RegisterFunction {Args : Type} {t : HighPrecisionTimer U} {tr : List Event}
      (func : Args → U → U) (interval : Nat) (args : Args) :
      Reachable t tr →
      Reachable (t.RegisterFunction func interval args).self
        (tr ++ (t.RegisterFunction func interval args).trace)
  | RegisterMemberFunction {T : Type} {t : HighPrecisionTimer U} {tr : List Event}
      (obj : T) (func : T → U → U) (interval : Nat) :
      Reachable t tr →
      Reachable (t.RegisterMemberFunction obj func interval).self
        (tr ++ (t.RegisterMemberFunction obj func interval).trace)
  | Start {t : HighPrecisionTimer U} {tr : List Event} (h : StartHost) :
      Reachable t tr → Reachable (t.Start h).self (tr ++ (t.Start h).trace)
  | Stop {t : HighPrecisionTimer U} {tr : List Event} :
      Reachable t tr → Reachable t.Stop.self (tr ++ t.Stop.trace)
  | FreeTimer {t : HighPrecisionTimer U} {tr : List Event} :
      Reachable t tr → Reachable t.FreeTimer.self (tr ++ t.FreeTimer.trace)

end HighPrecisionTimer

open HighPrecisionTimer

/-- The number of resolution requests (`timeBeginPeriod` calls) among the
events. -/
def countBeginPeriod (tr : List Event) : Nat := (tr.filter Event.isBeginPeriod).length

/-- The number of resolution releases (`timeEndPeriod` calls) among the
events. -/
def countEndPeriod (tr : List Event) : Nat := (tr.filter Event.isEndPeriod).length

/-- The host's bookkeeping of periodic events, one event at a time: a
`timeSetEvent` that returned a non-zero handle adds the handle, a
`timeKillEvent` removes it, every other event leaves the registrations alone. -/
def liveStep (live : List Nat) : Event → List Nat
  | Event.timeSetEvent _ _ _ _ ret => if ret ≠ 0 then ret :: live else live
  | Event.timeKillEvent uTimerID => live.filter (fun id => id ≠ uTimerID)
  | _ => live

/-- The periodic events registered and not yet cancelled after the events `tr`,
starting from no registration. -/
def liveEvents (tr : List Event) : List Nat := tr.foldl liveStep []

/-- What the demo's user functions leave in the user world: one record per
call. -/
inductive DemoOutput where
  | TestFunction (a : Int)
  | TestMemberFunction
deriving DecidableEq, Repr

/-- The demo function `TestFunction` (lines 139-141): it prints one line with its argument. -/
def TestFunction (a : Int) (u : List DemoOutput) : List DemoOutput :=
  u ++ [DemoOutput.TestFunction a]

/-- The demo `class TestClass` (lines 144-149) has no data member. -/
structure TestClass where
deriving DecidableEq, Repr

/-- The demo method `TestClass::TestMemberFunction` (lines 146-148): it prints one line. -/
def TestClass.TestMemberFunction (_obj : TestClass) (u : List DemoOutput) : List DemoOutput :=
  u ++ [DemoOutput.TestMemberFunction]

/-- The demo `main` (lines 151-188), with the destructor of `timer` at the end of the
scope.  `h1`, `h2` are the host's answers in the two calls of `Start`, and
`sleep1`, `sleep2` the counter values read by the trampoline firings that fall
into the two `Sleep(50)`.  The result is the value returned, all events in
order and the user world; `none` when a firing throws. -/
def demo.main (interval0 : Nat) (callback0 : LPTIMECALLBACK) (h1 h2 : StartHost)
    (sleep1 sleep2 : List Int) : Option (Int × List Event × List DemoOutput) := do
  let timer : HighPrecisionTimer (List DemoOutput) := init interval0 callback0
  let r1 := timer.RegisterFunction TestFunction 10 (100 : Int)
  let s1 := r1.self.Start h1
  let (timer1, u1, tr1) ←
    if s1.ret then do
      let (t, u, tr) ← firings sleep1 s1.self []
      pure (t.Stop.self, u, [Event.cout "Timer started successfully."] ++ tr ++ t.Stop.trace ++
        [Event.cout "Timer stopped."])
    else
      pure (s1.self, [], [Event.cout "Timer start failed."])
  let testObj : TestClass := {}
  let r2 := timer1.RegisterMemberFunction testObj TestClass.TestMemberFunction 5
  let s2 := r2.self.Start h2
  let (timer2, u2, tr2) ←
    if s2.ret then do
      let (t, u, tr) ← firings sleep2 s2.self u1
      pure (t.FreeTimer.self, u, [Event.cout "Timer started successfully."] ++ tr ++
        t.FreeTimer.trace ++ [Event.cout "Timer resources freed."])
    else
      pure (s2.self, u1, [Event.cout "Timer start failed."])
  pure (0, r1.trace ++ s1.trace ++ tr1 ++ r2.trace ++ s2.trace ++ tr2 ++ timer2.destructor.trace,
    u2)

/-- A host that answers `Start` with the range 1 ms to 1000000 ms and the
handle `timerId`. -/
def hostOk (timerId : Nat) : StartHost :=
  { perfFreq := 10000000, perfCounter := 5000, tickCount := 42, devCapsResult := 0,
    tc := { wPeriodMin := 1, wPeriodMax := 1000000 }, timerId := timerId, lastError := 0 }

/-- A host whose `timeGetDevCaps` fails with `TIMERR_NOCANDO` (97). -/
def hostNoCaps : StartHost :=
  { perfFreq := 10000000, perfCounter := 9000, tickCount := 43, devCapsResult := 97,
    tc := { wPeriodMin := 0, wPeriodMax := 0 }, timerId := 0, lastError := 0 }

/-- A host that reports the range 1 ms to 1000000 ms and refuses the
registration. -/
def hostNoArm : StartHost :=
  { perfFreq := 10000000, perfCounter := 5000, tickCount := 42, devCapsResult := 0,
    tc := { wPeriodMin := 1, wPeriodMax := 1000000 }, timerId := 0, lastError := 5 }

/-- A fresh instance on the user world of the demo. -/
def freshTimer : HighPrecisionTimer (List DemoOutput) :=
  init 0 (LPTIMECALLBACK.indeterminate 0)

/-- The instance after `RegisterFunction(TestFunction, 10, 100)`. -/
def registeredTimer : HighPrecisionTimer (List DemoOutput) :=
  (freshTimer.RegisterFunction TestFunction 10 (100 : Int)).self

/-- The instance after `RegisterFunction`, a `Start` that succeeds with handle
7 and `Stop`. -/
def stoppedTimer : HighPrecisionTimer (List DemoOutput) :=
  (registeredTimer.Start (hostOk 7)).self.Stop.self

/-- The events up to `stoppedTimer`. -/
def stoppedTrace : List Event :=
  (([] ++ (freshTimer.RegisterFunction TestFunction 10 (100 : Int)).trace) ++
    (registeredTimer.Start (hostOk 7)).trace) ++ (registeredTimer.Start (hostOk 7)).self.Stop.trace

/-- The instance after `RegisterFunction` and a `Start` that succeeds with
handle 7: a running timer. -/
def startedTimer : HighPrecisionTimer (List DemoOutput) :=
  (registeredTimer.Start (hostOk 7)).self

/-- The instance after `RegisterFunction`, `Start` (handle 7), `Stop` and a
second `Start` that succeeds with handle 8. -/
def restartedTimer : HighPrecisionTimer (List DemoOutput) :=
  (stoppedTimer.Start (hostOk 8)).self

/-- The events up to `restartedTimer`. -/
def restartedTrace : List Event :=
  stoppedTrace ++ (stoppedTimer.Start (hostOk 8)).trace

theorem liveEvents_append (tr tr2 : List Event) :
    liveEvents (tr ++ tr2) = tr2.foldl liveStep (liveEvents tr) := by
  simp [liveEvents, List.foldl_append]

/-- The lifecycle invariant of every reachable state: the handle is non-zero
exactly when the running flag is set, and the host's live registrations are
the handle alone (none when the handle is 0). -/
theorem reachable_invariant {U : Type} {t : HighPrecisionTimer U} {tr : List Event}
    (hr : Reachable t tr) :
    (t.m_mmTimerId ≠ 0 ↔ t.m_isRunning = true) ∧
      liveEvents tr = (if t.m_mmTimerId ≠ 0 then [t.m_mmTimerId] else []) := by
  induction hr with
  | init interval callback => simp [init, liveEvents]
  | @RegisterFunction Args t tr func interval args _ ih =>
    obtain ⟨ih1, ih2⟩ := ih
    by_cases hrun : t.m_isRunning = true <;>
      simp_all [RegisterFunction, liveEvents_append, liveStep]
  | @RegisterMemberFunction T t tr obj func interval _ ih =>
    obtain ⟨ih1, ih2⟩ := ih
    by_cases hrun : t.m_isRunning = true <;>
      simp_all [RegisterMemberFunction, liveEvents_append, liveStep]
  | @Start t tr h _ ih =>
    obtain ⟨ih1, ih2⟩ := ih
    by_cases hrun : t.m_isRunning = true <;> by_cases hcaps : h.devCapsResult = TIMERR_NOERROR <;>
      by_cases hid : h.timerId = 0 <;>
      simp_all [Start, liveEvents_append, liveStep]
  | @Stop t tr _ ih =>
    obtain ⟨ih1, ih2⟩ := ih
    by_cases hid : t.m_mmTimerId = 0 <;>
      simp_all [Stop, liveEvents_append, liveStep]
  | @FreeTimer t tr _ ih =>
    obtain ⟨ih1, ih2⟩ := ih
    by_cases hid : t.m_mmTimerId = 0 <;> by_cases hacc : t.m_wAccuracy = 0 <;>
      simp_all [FreeTimer, Stop, liveEvents_append, liveStep]

/-- The sample instances are reachable. -/
theorem stoppedTimer_reachable : Reachable stoppedTimer stoppedTrace :=
  Reachable.Stop (Reachable.Start (hostOk 7)
    (Reachable.RegisterFunction TestFunction 10 (100 : Int)
      (Reachable.init 0 (LPTIMECALLBACK.indeterminate 0))))

/-- The clamp written with the `windows.h` conditionals is the clamp written
with `min` and `max`. -/
theorem windows_clamp (lo hi : Nat) :
    windows.min (windows.max lo TIMER_ACCURACY) hi = min (max lo 1) hi := by
  unfold windows.min windows.max TIMER_ACCURACY
  split <;> split <;> omega

/-- Firing the trampoline of an instance whose stored callback is `g`: every
firing applies `g` once to the user world and moves only the last-fire
timestamp. -/
theorem firings_of_callback {U : Type} (g : U → U) (times : List Int) :
    ∀ (s : HighPrecisionTimer U) (u : U), s.m_generalCallback = some g →
      (firings times s u).map (fun r => (r.1, r.2.1)) =
        some ({ s with m_lastTriggerTime := times.getLast?.getD s.m_lastTriggerTime },
          g^[times.length] u) := by
  induction times with
  | nil => intro s u _; simp [firings]
  | cons now rest ih =>
    intro s u hs
    obtain ⟨id, acc, freq, start, last, ticket, cb, gc, interval, running⟩ := s
    simp only at hs
    subst hs
    have h1 := ih ⟨id, acc, freq, start, now, ticket, cb, some g, interval, running⟩ (g u) rfl
    simp only [firings, TimerCallback, Option.map_some']
    cases hf : firings rest ⟨id, acc, freq, start, now, ticket, cb, some g, interval, running⟩
        (g u) with
    | none => simp [hf] at h1
    | some r =>
      obtain ⟨t2, u2, tr⟩ := r
      simp only [hf, Option.map_some', Option.some.injEq, Prod.mk.injEq] at h1
      simp [h1.1, h1.2, List.getLast?_cons]

/-! The claims. -/

/-- C1. While the timer is running (`m_isRunning = true`), `RegisterFunction`,
`RegisterMemberFunction` and `Start` each return `false`, produce one
`std::cout` line and no host call, and leave the object exactly as it was. -/
theorem C1_misuse_rejected {U Args T : Type} (t : HighPrecisionTimer U)
    (hrun : t.m_isRunning = true)
    (func : Args → U → U) (args : Args) (obj : T) (method : T → U → U) (interval : Nat)
    (h : StartHost) :
    ((t.RegisterFunction func interval args).ret = false ∧
      (t.RegisterFunction func interval args).self = t ∧
      (t.RegisterFunction func interval args).trace =
        [Event.cout "Timer is already running. Cannot register new function."] ∧
      hostCalls (t.RegisterFunction func interval args).trace = []) ∧
    ((t.RegisterMemberFunction obj method interval).ret = false ∧
      (t.RegisterMemberFunction obj method interval).self = t ∧
      (t.RegisterMemberFunction obj method interval).trace =
        [Event.cout "Timer is already running. Cannot register new function."] ∧
      hostCalls (t.RegisterMemberFunction obj method interval).trace = []) ∧
    ((t.Start h).ret = false ∧ (t.Start h).self = t ∧
      (t.Start h).trace = [Event.cout "Timer is already running."] ∧
      hostCalls (t.Start h).trace = []) := by
  simp [RegisterFunction, RegisterMemberFunction, Start, hrun, hostCalls, Event.isHostCall]

/-- C1, at a running instance: a timer started with handle 7 rejects a second
`Start` and both registrations and stays as it was. -/
theorem C1_misuse_rejected_witness :
    startedTimer.m_isRunning = true ∧
      (startedTimer.RegisterFunction TestFunction 20 (1 : Int)).ret = false ∧
      (startedTimer.RegisterFunction TestFunction 20 (1 : Int)).self = startedTimer ∧
      (startedTimer.RegisterMemberFunction TestClass.mk TestClass.TestMemberFunction 20).ret
        = false ∧
      (startedTimer.RegisterMemberFunction TestClass.mk TestClass.TestMemberFunction 20).self
        = startedTimer ∧
      (startedTimer.Start (hostOk 8)).ret = false ∧
      (startedTimer.Start (hostOk 8)).self = startedTimer ∧
      hostCalls (startedTimer.Start (hostOk 8)).trace = [] :=
  have h := C1_misuse_rejected startedTimer rfl TestFunction (1 : Int) TestClass.mk
    TestClass.TestMemberFunction 20 (hostOk 8)
  ⟨rfl, h.1.1, h.1.2.1, h.2.1.1, h.2.1.2.1, h.2.2.1, h.2.2.2.1, h.2.2.2.2.2⟩

/-- C2. In every state reachable from the constructor by `RegisterFunction`,
`RegisterMemberFunction`, `Start`, `Stop` and `FreeTimer` calls, under any host
answers, the handle `m_mmTimerId` is non-zero if and only if `m_isRunning` is
true. -/
theorem C2_handle_iff_running {U : Type} (t : HighPrecisionTimer U) (tr : List Event)
    (hr : Reachable t tr) : t.m_mmTimerId ≠ 0 ↔ t.m_isRunning = true :=
  (reachable_invariant hr).1

/-- C2, at the running instance with handle 7. -/
theorem C2_handle_iff_running_witness :
    Reachable startedTimer
        (([] ++ (freshTimer.RegisterFunction TestFunction 10 (100 : Int)).trace) ++
          (registeredTimer.Start (hostOk 7)).trace) ∧
      (startedTimer.m_mmTimerId ≠ 0 ↔ startedTimer.m_isRunning = true) :=
  have hr : Reachable startedTimer
      (([] ++ (freshTimer.RegisterFunction TestFunction 10 (100 : Int)).trace) ++
        (registeredTimer.Start (hostOk 7)).trace) :=
    Reachable.Start (hostOk 7) (Reachable.RegisterFunction TestFunction 10 (100 : Int)
      (Reachable.init 0 (LPTIMECALLBACK.indeterminate 0)))
  ⟨hr, C2_handle_iff_running _ _ hr⟩

/-- C3. The claim that requests and releases of the clock resolution are equal
in number at the end of every sequence fails on the demo's own sequence: with a
host that grants everything, `main` (register, `Start`, `Stop`, register,
`Start`, `FreeTimer`, destructor) calls `timeBeginPeriod` twice and
`timeEndPeriod` once; so there is a reachable state from which `FreeTimer`
leaves the two counts different. -/
theorem C3_demo_requests_twice_releases_once :
    (demo.main 0 (LPTIMECALLBACK.indeterminate 0) (hostOk 7) (hostOk 8) [6000, 7000] [8000]).map
        (fun r => (r.1, countBeginPeriod r.2.1, countEndPeriod r.2.1)) = some (0, 2, 1) ∧
      Reachable restartedTimer restartedTrace ∧
      countBeginPeriod (restartedTrace ++ restartedTimer.FreeTimer.trace) = 2 ∧
      countEndPeriod (restartedTrace ++ restartedTimer.FreeTimer.trace) = 1 :=
  ⟨by decide, Reachable.Start (hostOk 8) stoppedTimer_reachable, by decide, by decide⟩

/-- C4. For every non-running state and every host range with
`wPeriodMin ≤ wPeriodMax`, when `timeGetDevCaps` succeeds `Start` sets
`m_wAccuracy` to `min (max wPeriodMin 1) wPeriodMax`; the value lies in the
host range, is 1 whenever 1 lies in the range, and is the argument of the one
`timeBeginPeriod` call of this `Start`. -/
theorem C4_resolution_clamp {U : Type} (t : HighPrecisionTimer U) (h : StartHost)
    (hrun : t.m_isRunning = false) (hcaps : h.devCapsResult = TIMERR_NOERROR)
    (hrange : h.tc.wPeriodMin ≤ h.tc.wPeriodMax) :
    (t.Start h).self.m_wAccuracy = min (max h.tc.wPeriodMin 1) h.tc.wPeriodMax ∧
      h.tc.wPeriodMin ≤ (t.Start h).self.m_wAccuracy ∧
      (t.Start h).self.m_wAccuracy ≤ h.tc.wPeriodMax ∧
      (h.tc.wPeriodMin ≤ 1 → 1 ≤ h.tc.wPeriodMax → (t.Start h).self.m_wAccuracy = 1) ∧
      (t.Start h).trace.filter Event.isBeginPeriod =
        [Event.timeBeginPeriod (t.Start h).self.m_wAccuracy] := by
  have hacc : (t.Start h).self.m_wAccuracy = min (max h.tc.wPeriodMin 1) h.tc.wPeriodMax := by
    by_cases hid : h.timerId = 0 <;> simp [Start, hrun, hcaps, hid, windows_clamp]
  have htr : (t.Start h).trace.filter Event.isBeginPeriod =
      [Event.timeBeginPeriod (t.Start h).self.m_wAccuracy] := by
    by_cases hid : h.timerId = 0 <;> simp [Start, hrun, hcaps, hid, Event.isBeginPeriod]
  refine ⟨hacc, ?_, ?_, ?_, htr⟩
  · rw [hacc]; omega
  · rw [hacc]; omega
  · intro h1 h2; rw [hacc]; omega

/-- C4, at the registered instance and the host range 1 ms to 1000000 ms: the
negotiated resolution is 1 ms and `timeBeginPeriod(1)` is the request. -/
theorem C4_resolution_clamp_witness :
    registeredTimer.m_isRunning = false ∧ (hostOk 7).devCapsResult = TIMERR_NOERROR ∧
      (hostOk 7).tc.wPeriodMin ≤ (hostOk 7).tc.wPeriodMax ∧
      (hostOk 7).tc.wPeriodMin ≤ 1 ∧ 1 ≤ (hostOk 7).tc.wPeriodMax ∧
      (registeredTimer.Start (hostOk 7)).self.m_wAccuracy = 1 ∧
      (registeredTimer.Start (hostOk 7)).trace.filter Event.isBeginPeriod =
        [Event.timeBeginPeriod (registeredTimer.Start (hostOk 7)).self.m_wAccuracy] :=
  have h := C4_resolution_clamp registeredTimer (hostOk 7) rfl rfl (by decide)
  ⟨rfl, rfl, by decide, by decide, by decide, h.2.2.2.1 (by decide) (by decide), h.2.2.2.2⟩

/-- C5. For every non-running state and every host range whose maximum period
is at least 1 ms (the resolution negotiated is then non-zero; 0 is the value of
`m_wAccuracy` that stands for no resolution), if `timeGetDevCaps` succeeds and
`timeSetEvent` returns handle 0, then `Start` returns `false`, afterwards
`m_isRunning` is false and `m_mmTimerId` is 0, the call has made exactly one
`timeBeginPeriod` request and no `timeEndPeriod`, and `m_wAccuracy` holds the
requested value `min (max wPeriodMin 1) wPeriodMax`; the following `FreeTimer`
makes exactly one host call, `timeEndPeriod` of that value, and clears
`m_wAccuracy`. -/
theorem C5_failed_arm_keeps_claim {U : Type} (t : HighPrecisionTimer U) (h : StartHost)
    (hrun : t.m_isRunning = false) (hcaps : h.devCapsResult = TIMERR_NOERROR)
    (harm : h.timerId = 0) (hmax : 1 ≤ h.tc.wPeriodMax) :
    (t.Start h).ret = false ∧ (t.Start h).self.m_isRunning = false ∧
      (t.Start h).self.m_mmTimerId = 0 ∧
      (t.Start h).trace.filter Event.isBeginPeriod =
        [Event.timeBeginPeriod (min (max h.tc.wPeriodMin 1) h.tc.wPeriodMax)] ∧
      (t.Start h).trace.filter Event.isEndPeriod = [] ∧
      (t.Start h).self.m_wAccuracy = min (max h.tc.wPeriodMin 1) h.tc.wPeriodMax ∧
      (t.Start h).self.m_wAccuracy ≠ 0 ∧
      (t.Start h).self.FreeTimer.trace =
        [Event.timeEndPeriod (min (max h.tc.wPeriodMin 1) h.tc.wPeriodMax)] ∧
      countEndPeriod (t.Start h).self.FreeTimer.trace = 1 ∧
      (t.Start h).self.FreeTimer.self.m_wAccuracy = 0 ∧
      (t.Start h).self.FreeTimer.self.m_mmTimerId = 0 ∧
      (t.Start h).self.FreeTimer.self.m_isRunning = false := by
  have hc := windows_clamp h.tc.wPeriodMin h.tc.wPeriodMax
  have hv : min (max h.tc.wPeriodMin 1) h.tc.wPeriodMax ≠ 0 := by omega
  refine ⟨?_, ?_, ?_, ?_, ?_, ?_, ?_, ?_, ?_, ?_, ?_, ?_⟩
  · simp [Start, hrun, hcaps, harm]
  · simp [Start, hrun, hcaps, harm]
  · simp [Start, hrun, hcaps, harm]
  · simp [Start, hrun, hcaps, harm, hc, Event.isBeginPeriod]
  · simp [Start, hrun, hcaps, harm, Event.isEndPeriod]
  · simp [Start, hrun, hcaps, harm, hc]
  · simp [Start, hrun, hcaps, harm, hc, hv]
  · simp [Start, FreeTimer, Stop, hrun, hcaps, harm, hc, hv]
  · simp [Start, FreeTimer, Stop, hrun, hcaps, harm, hc, hv, countEndPeriod, Event.isEndPeriod]
  · simp [Start, FreeTimer, Stop, hrun, hcaps, harm, hc, hv]
  · simp [Start, FreeTimer, Stop, hrun, hcaps, harm, hc, hv]
  · simp [Start, FreeTimer, Stop, hrun, hcaps, harm, hc, hv]

/-- C5, at the registered instance with a host that reports 1 ms to 1000000 ms
and refuses the registration: `Start` fails holding 1 ms and `FreeTimer`
releases 1 ms once. -/
theorem C5_failed_arm_keeps_claim_witness :
    registeredTimer.m_isRunning = false ∧ hostNoArm.devCapsResult = TIMERR_NOERROR ∧
      hostNoArm.timerId = 0 ∧ 1 ≤ hostNoArm.tc.wPeriodMax ∧
      (registeredTimer.Start hostNoArm).ret = false ∧
      (registeredTimer.Start hostNoArm).trace.filter Event.isBeginPeriod =
        [Event.timeBeginPeriod (min (max hostNoArm.tc.wPeriodMin 1) hostNoArm.tc.wPeriodMax)] ∧
      (registeredTimer.Start hostNoArm).self.m_wAccuracy =
        min (max hostNoArm.tc.wPeriodMin 1) hostNoArm.tc.wPeriodMax ∧
      (registeredTimer.Start hostNoArm).self.FreeTimer.trace =
        [Event.timeEndPeriod (min (max hostNoArm.tc.wPeriodMin 1) hostNoArm.tc.wPeriodMax)] ∧
      countEndPeriod (registeredTimer.Start hostNoArm).self.FreeTimer.trace = 1 :=
  have h := C5_failed_arm_keeps_claim registeredTimer hostNoArm rfl rfl rfl (by decide)
  ⟨rfl, rfl, rfl, by decide, h.1, h.2.2.2.1, h.2.2.2.2.2.1, h.2.2.2.2.2.2.2.1,
    h.2.2.2.2.2.2.2.2.1⟩

/-- C6, as stated, fails on an instance that was started, stopped and not
freed: it is reachable and not running, the query of the next `Start` fails,
`Start` returns `false`, and `m_wAccuracy` is still 1, not 0. -/
theorem C6_counterexample_resolution_still_held :
    Reachable stoppedTimer stoppedTrace ∧ stoppedTimer.m_isRunning = false ∧
      hostNoCaps.devCapsResult ≠ TIMERR_NOERROR ∧
      (stoppedTimer.Start hostNoCaps).ret = false ∧
      (stoppedTimer.Start hostNoCaps).self.m_wAccuracy = 1 ∧
      (stoppedTimer.Start hostNoCaps).self.m_wAccuracy ≠ 0 :=
  ⟨stoppedTimer_reachable, rfl, by decide, by decide, by decide, by decide⟩

/-- C6, amended. For every non-running state, if `timeGetDevCaps` fails then
`Start` returns `false`, its only host calls are the three clock reads and the
failed query (no `timeBeginPeriod`, no `timeSetEvent`), and `m_wAccuracy`,
`m_isRunning` and `m_mmTimerId` are what they were before the call; so
`m_wAccuracy` is 0 afterwards when it was 0 before. -/
theorem C6_query_failure {U : Type} (t : HighPrecisionTimer U) (h : StartHost)
    (hrun : t.m_isRunning = false) (hcaps : h.devCapsResult ≠ TIMERR_NOERROR) :
    (t.Start h).ret = false ∧
      (t.Start h).trace = [Event.QueryPerformanceFrequency h.perfFreq,
        Event.QueryPerformanceCounter h.perfCounter, Event.GetTickCount h.tickCount,
        Event.timeGetDevCaps h.devCapsResult] ∧
      (t.Start h).trace.filter Event.isBeginPeriod = [] ∧
      (t.Start h).trace.filter Event.isSetEvent = [] ∧
      (t.Start h).self.m_wAccuracy = t.m_wAccuracy ∧
      (t.Start h).self.m_isRunning = t.m_isRunning ∧
      (t.Start h).self.m_mmTimerId = t.m_mmTimerId ∧
      (t.m_wAccuracy = 0 → (t.Start h).self.m_wAccuracy = 0) := by
  simp [Start, hrun, hcaps, Event.isBeginPeriod, Event.isSetEvent]

/-- C6, amended, at the registered instance (no resolution held yet) and a host
whose query fails with `TIMERR_NOCANDO`. -/
theorem C6_query_failure_witness :
    registeredTimer.m_isRunning = false ∧ hostNoCaps.devCapsResult ≠ TIMERR_NOERROR ∧
      registeredTimer.m_wAccuracy = 0 ∧
      (registeredTimer.Start hostNoCaps).ret = false ∧
      (registeredTimer.Start hostNoCaps).trace.filter Event.isBeginPeriod = [] ∧
      (registeredTimer.Start hostNoCaps).trace.filter Event.isSetEvent = [] ∧
      (registeredTimer.Start hostNoCaps).self.m_wAccuracy = 0 :=
  have h := C6_query_failure registeredTimer hostNoCaps rfl (by decide)
  ⟨rfl, by decide, rfl, h.1, h.2.2.1, h.2.2.2.1, h.2.2.2.2.2.2.2 rfl⟩

/-- C7. For every state with `m_isRunning = false`, whatever was registered
before, `RegisterFunction(func, interval, args...)` and
`RegisterMemberFunction(obj, method, interval)` return `true`, make no host
call, store the new callback (`func` applied to `args`, `method` applied to
`obj`), the trampoline address and `interval`, and change no other member; the
next `Start` passes exactly `interval` as the period of its one `timeSetEvent`
call (it makes that call whenever the resolution query succeeds, and none
otherwise). -/
theorem C7_registration_stores {U Args T : Type} (t : HighPrecisionTimer U)
    (hrun : t.m_isRunning = false)
    (func : Args → U → U) (args : Args) (obj : T) (method : T → U → U) (interval : Nat) :
    ((t.RegisterFunction func interval args).ret = true ∧
      (t.RegisterFunction func interval args).trace = [] ∧
      (t.RegisterFunction func interval args).self =
        { t with m_generalCallback := some (func args),
                 m_callback := LPTIMECALLBACK.TimerCallback, m_interval := interval } ∧
      ∀ h : StartHost,
        ((t.RegisterFunction func interval args).self.Start h).trace.filter Event.isSetEvent =
          if h.devCapsResult = TIMERR_NOERROR then
            [Event.timeSetEvent interval 0 LPTIMECALLBACK.TimerCallback TIME_PERIODIC h.timerId]
          else []) ∧
    ((t.RegisterMemberFunction obj method interval).ret = true ∧
      (t.RegisterMemberFunction obj method interval).trace = [] ∧
      (t.RegisterMemberFunction obj method interval).self =
        { t with m_generalCallback := some (method obj),
                 m_callback := LPTIMECALLBACK.TimerCallback, m_interval := interval } ∧
      ∀ h : StartHost,
        ((t.RegisterMemberFunction obj method interval).self.Start h).trace.filter
            Event.isSetEvent =
          if h.devCapsResult = TIMERR_NOERROR then
            [Event.timeSetEvent interval 0 LPTIMECALLBACK.TimerCallback TIME_PERIODIC h.timerId]
          else []) := by
  refine ⟨⟨?_, ?_, ?_, ?_⟩, ⟨?_, ?_, ?_, ?_⟩⟩
  · simp [RegisterFunction, hrun]
  · simp [RegisterFunction, hrun]
  · simp [RegisterFunction, hrun]
  · intro h
    by_cases hcaps : h.devCapsResult = TIMERR_NOERROR <;> by_cases hid : h.timerId = 0 <;>
      simp [RegisterFunction, Start, hrun, hcaps, hid, Event.isSetEvent]
  · simp [RegisterMemberFunction, hrun]
  · simp [RegisterMemberFunction, hrun]
  · simp [RegisterMemberFunction, hrun]
  · intro h
    by_cases hcaps : h.devCapsResult = TIMERR_NOERROR <;> by_cases hid : h.timerId = 0 <;>
      simp [RegisterMemberFunction, Start, hrun, hcaps, hid, Event.isSetEvent]

/-- C7, at the stopped instance, which still holds `TestFunction` bound to 100
with interval 10: registering the member function with interval 5 replaces
both, and the next `Start` registers with period 5. -/
theorem C7_registration_stores_witness :
    stoppedTimer.m_isRunning = false ∧
      (stoppedTimer.RegisterMemberFunction TestClass.mk TestClass.TestMemberFunction 5).ret
        = true ∧
      (stoppedTimer.RegisterMemberFunction TestClass.mk TestClass.TestMemberFunction 5).self
        = { stoppedTimer with
            m_generalCallback := some (TestClass.TestMemberFunction TestClass.mk),
            m_callback := LPTIMECALLBACK.TimerCallback, m_interval := 5 } ∧
      (((stoppedTimer.RegisterMemberFunction TestClass.mk TestClass.TestMemberFunction 5).self.Start
          (hostOk 8)).trace.filter Event.isSetEvent =
        if (hostOk 8).devCapsResult = TIMERR_NOERROR then
          [Event.timeSetEvent 5 0 LPTIMECALLBACK.TimerCallback TIME_PERIODIC (hostOk 8).timerId]
        else []) :=
  have h := C7_registration_stores stoppedTimer rfl TestFunction (100 : Int) TestClass.mk
    TestClass.TestMemberFunction 5
  ⟨rfl, h.2.1, h.2.2.2.1, h.2.2.2.2 (hostOk 8)⟩

/-- C9. With the host's periodic events computed from the calls the instance
made (`timeSetEvent` with a non-zero result adds, `timeKillEvent` removes), in
every reachable state there is at most one live registration: it is exactly
`m_mmTimerId` when the handle is non-zero, and there is none when the handle
is 0. -/
theorem C9_one_live_registration {U : Type} (t : HighPrecisionTimer U) (tr : List Event)
    (hr : Reachable t tr) :
    (liveEvents tr).length ≤ 1 ∧
      (t.m_mmTimerId ≠ 0 → liveEvents tr = [t.m_mmTimerId]) ∧
      (t.m_mmTimerId = 0 → liveEvents tr = []) := by
  have hinv := (reachable_invariant hr).2
  by_cases hid : t.m_mmTimerId = 0 <;> simp [hinv, hid]

/-- C9, at the instance restarted with handle 8 after handle 7 was cancelled:
the only live registration is 8. -/
theorem C9_one_live_registration_witness :
    Reachable restartedTimer restartedTrace ∧ restartedTimer.m_mmTimerId ≠ 0 ∧
      liveEvents restartedTrace = [restartedTimer.m_mmTimerId] ∧
      restartedTimer.m_mmTimerId = 8 :=
  have hr : Reachable restartedTimer restartedTrace :=
    Reachable.Start (hostOk 8) stoppedTimer_reachable
  ⟨hr, by decide, (C9_one_live_registration restartedTimer restartedTrace hr).2.1 (by decide),
    rfl⟩

/-- C10. After a successful `RegisterFunction(func, interval, args...)`, for
the instance `s` in any later state that still stores that callback, one
invocation of the trampoline calls `func` once with the arguments bound at
registration, reads the counter once, sets `m_lastTriggerTime` to the value
read and changes no other member; after `k` firings `func args` has been
applied `k` times and only `m_lastTriggerTime` (the value read last) differs
from `s`. -/
theorem C10_trampoline_dispatch {U Args : Type} (t : HighPrecisionTimer U)
    (hrun : t.m_isRunning = false) (func : Args → U → U) (interval : Nat) (args : Args)
    (s : HighPrecisionTimer U)
    (hs : s.m_generalCallback = (t.RegisterFunction func interval args).self.m_generalCallback)
    (u : U) (now : Int) (times : List Int) :
    (t.RegisterFunction func interval args).ret = true ∧
      (s.TimerCallback u now).ret = some (func args u) ∧
      (s.TimerCallback u now).self = { s with m_lastTriggerTime := now } ∧
      hostCalls (s.TimerCallback u now).trace = [Event.QueryPerformanceCounter now] ∧
      (firings times s u).map (fun r => (r.1, r.2.1)) =
        some ({ s with m_lastTriggerTime := times.getLast?.getD s.m_lastTriggerTime },
          (func args)^[times.length] u) := by
  have hg : s.m_generalCallback = some (func args) := by
    rw [hs]; simp [RegisterFunction, hrun]
  refine ⟨?_, ?_, ?_, ?_, firings_of_callback (func args) times s u hg⟩
  · simp [RegisterFunction, hrun]
  · simp [TimerCallback, hg]
  · simp [TimerCallback]
  · simp [TimerCallback, hostCalls, Event.isHostCall]

/-- C10, at the demo's registration `RegisterFunction(TestFunction, 10, 100)`
followed by a successful `Start`: three firings call `TestFunction(100)` three
times and leave the last counter value in `m_lastTriggerTime`. -/
theorem C10_trampoline_dispatch_witness :
    freshTimer.m_isRunning = false ∧
      startedTimer.m_generalCallback =
        (freshTimer.RegisterFunction TestFunction 10 (100 : Int)).self.m_generalCallback ∧
      (startedTimer.TimerCallback [] 6000).ret = some [DemoOutput.TestFunction 100] ∧
      (firings [6000, 7000, 8000] startedTimer []).map (fun r => (r.1, r.2.1)) =
        some ({ startedTimer with m_lastTriggerTime := 8000 },
          [DemoOutput.TestFunction 100, DemoOutput.TestFunction 100,
            DemoOutput.TestFunction 100]) :=
  have h := C10_trampoline_dispatch freshTimer rfl TestFunction 10 (100 : Int) startedTimer rfl
    [] 6000 [6000, 7000, 8000]
  ⟨rfl, rfl, h.2.1, h.2.2.2.2⟩
